import Mathlib

/-!
Verification of the mltrace lineage-graph core (mltrace/db/models.py and
mltrace/entities/component_run.py) against its natural-language
specification.  The Python classes are shallowly embedded: each method
becomes a Lean function on an explicit record type; Python datetimes are
modelled as natural numbers; Python object identity (which governs set
membership for objects that define no structural equality, as is the case
for IOPointer, Label and ComponentRun in models.py) is modelled by an
explicit object-identity field or, for ComponentRun graphs, by a reference
into an explicit environment.  Fallible methods return Except.
-/

namespace Mltrace

/-- A Python value passed where a str is expected: either an actual string
or a non-string value (tagged so that distinct non-strings exist). -/
inductive PyVal where
  | str (s : String)
  | nonStr (tag : Nat)
  deriving DecidableEq, Repr

/-- A Python value passed where a datetime is expected: None, an actual
datetime (modelled as a natural number), or a value of some other type. -/
inductive PyTsArg where
  | pyNone
  | pyDatetime (t : Nat)
  | pyOther (tag : Nat)
  deriving DecidableEq, Repr

/-- models.py Label: primary key id.  Label defines no structural
equality, so Python set membership over labels is object identity; the
oid field models the object identity of a Label instance. -/
structure Label where
  oid : Nat
  id : String
  deriving DecidableEq, Repr

/-- models.py PointerTypeEnum. -/
inductive PointerTypeEnum where
  | data
  | model
  | endpoint
  | unknown
  deriving DecidableEq, Repr

/-- models.py IOPointer: name/value key plus pointer type, flag and
labels.  IOPointer defines no structural equality or hash, so Python set
membership over pointers is object identity; the oid field models the
object identity of an IOPointer instance (two genuinely distinct Python
objects have distinct oid even when name and value coincide). -/
structure IOPointer where
  oid : Nat
  name : String
  value : List Nat
  pointer_type : PointerTypeEnum
  flag : Bool
  labels : List Label
  deriving DecidableEq, Repr

/-- models.py IOPointer.add_label: self.labels = self.labels + [label]. -/
def IOPointer.add_label (self : IOPointer) (label : Label) : IOPointer :=
  { self with labels := self.labels ++ [label] }

/-- models.py IOPointer.add_labels: self.labels = self.labels + labels. -/
def IOPointer.add_labels (self : IOPointer) (labels : List Label) : IOPointer :=
  { self with labels := self.labels ++ labels }

/-- models.py IOPointer.dedup_labels: self.labels = list(set(self.labels)).
Python set membership over Label objects is object identity; List.dedup
over our Label representation removes repeated occurrences of the same
object (equal oid and id). -/
def IOPointer.dedup_labels (self : IOPointer) : IOPointer :=
  { self with labels := self.labels.dedup }

/-- models.py IOPointer.set_flag. -/
def IOPointer.set_flag (self : IOPointer) : IOPointer :=
  { self with flag := true }

/-- models.py IOPointer.clear_flag. -/
def IOPointer.clear_flag (self : IOPointer) : IOPointer :=
  { self with flag := false }

/-- A reference to a ComponentRun object (Python object identity).  The
dependencies relationship of a run holds references to other run objects;
an environment of type Ref → ComponentRun resolves them. -/
abbrev Ref := Nat

/-- models.py ComponentRun: the db-side run record.  dependencies holds
references to other ComponentRun objects; stale is the append-only list
of staleness messages. -/
structure ComponentRun where
  id : Option Int
  component_name : String
  notes : String
  git_hash : Option String
  code_snapshot : Option (List Nat)
  start_timestamp : Option Nat
  end_timestamp : Option Nat
  inputs : List IOPointer
  outputs : List IOPointer
  dependencies : List Ref
  stale : List String
  deriving DecidableEq, Repr

/-- models.py ComponentRun.__init__(component_name): only the component
name is supplied; notes is the empty string and all collections start
empty, timestamps and id unset. -/
def ComponentRun.init (component_name : String) : ComponentRun :=
  { id := none
    component_name := component_name
    notes := ""
    git_hash := none
    code_snapshot := none
    start_timestamp := none
    end_timestamp := none
    inputs := []
    outputs := []
    dependencies := []
    stale := [] }

/-- models.py ComponentRun.set_start_timestamp(ts=None): if ts is None it
becomes utcnow() (passed explicitly as now); a non-datetime raises
TypeError before any assignment, so on error no updated record is
produced and the caller still holds the unchanged record. -/
def ComponentRun.set_start_timestamp (self : ComponentRun) (now : Nat)
    (ts : PyTsArg) : Except String ComponentRun :=
  let ts := match ts with
    | .pyNone => PyTsArg.pyDatetime now
    | x => x
  match ts with
  | .pyDatetime t => .ok { self with start_timestamp := some t }
  | _ => .error "Timestamp must be of type datetime."

/-- models.py ComponentRun.set_end_timestamp(ts=None): same shape as
set_start_timestamp. -/
def ComponentRun.set_end_timestamp (self : ComponentRun) (now : Nat)
    (ts : PyTsArg) : Except String ComponentRun :=
  let ts := match ts with
    | .pyNone => PyTsArg.pyDatetime now
    | x => x
  match ts with
  | .pyDatetime t => .ok { self with end_timestamp := some t }
  | _ => .error "Timestamp must be of type datetime."

/-- models.py ComponentRun.add_notes: raises TypeError on a non-string,
otherwise assigns the notes field. -/
def ComponentRun.add_notes (self : ComponentRun) (notes : PyVal) :
    Except String ComponentRun :=
  match notes with
  | .str s => .ok { self with notes := s }
  | .nonStr _ => .error "notes field must be of type str"

/-- models.py ComponentRun.add_staleness_message:
self.stale = self.stale + [message]. -/
def ComponentRun.add_staleness_message (self : ComponentRun)
    (message : String) : ComponentRun :=
  { self with stale := self.stale ++ [message] }

/-- models.py ComponentRun._add_io: rebinds self.inputs (or self.outputs)
to list(set(old + elems)).  Python set membership is object identity
(IOPointer defines no structural equality); list(set(...)) produces a
duplicate-free list of the same members, modelled by List.dedup. -/
def ComponentRun.add_io_helper (self : ComponentRun)
    (elems : List IOPointer) (input : Bool) : ComponentRun :=
  if input then
    { self with inputs := (self.inputs ++ elems).dedup }
  else
    { self with outputs := (self.outputs ++ elems).dedup }

/-- models.py ComponentRun.add_input. -/
def ComponentRun.add_input (self : ComponentRun) (inp : IOPointer) :
    ComponentRun :=
  self.add_io_helper [inp] true

/-- models.py ComponentRun.add_inputs. -/
def ComponentRun.add_inputs (self : ComponentRun)
    (inputs : List IOPointer) : ComponentRun :=
  self.add_io_helper inputs true

/-- models.py ComponentRun.add_output. -/
def ComponentRun.add_output (self : ComponentRun) (out : IOPointer) :
    ComponentRun :=
  self.add_io_helper [out] false

/-- models.py ComponentRun.add_outputs. -/
def ComponentRun.add_outputs (self : ComponentRun)
    (outputs : List IOPointer) : ComponentRun :=
  self.add_io_helper outputs false

/-- models.py ComponentRun.set_upstream: appends the given run
references to self.dependencies and then drops duplicates via
list(set(...)); set membership is object identity, i.e. equality of
references. -/
def ComponentRun.set_upstream (self : ComponentRun)
    (dependencies : List Ref) : ComponentRun :=
  { self with dependencies := (self.dependencies ++ dependencies).dedup }

/-- Python truthiness of the id column as used in the guard
"self.id and ...": None and 0 are falsy, every other integer truthy. -/
def pyTruthyId : Option Int → Bool
  | none => false
  | some v => v != 0

/-- Message appended when the start timestamp is missing. -/
def noStartMsg (c : String) : String :=
  c ++ " ComponentRun has no start timestamp. "

/-- Message appended when the end timestamp is missing. -/
def noEndMsg (c : String) : String :=
  c ++ " ComponentRun has no end timestamp. "

/-- Message appended when inputs is empty. -/
def noInputsMsg (c : String) : String :=
  c ++ " ComponentRun has no inputs. "

/-- Message appended when outputs is empty. -/
def noOutputsMsg (c : String) : String :=
  c ++ " ComponentRun has no outputs. "

/-- Message appended when dependencies is empty. -/
def noDepsMsg (c : String) : String :=
  c ++ " ComponentRun has no dependencies. "

/-- Message appended when the record's own id occurs among the ids of its
direct dependencies. -/
def circularMsg (c : String) : String :=
  c ++ " ComponentRun has a circular dependency. "

/-- The status dictionary returned by check_completeness.  The source
accumulates one string by concatenation; msgs records the appended
messages in order, so the source's msg field is their concatenation. -/
structure StatusDict where
  success : Bool
  msgs : List String
  deriving DecidableEq, Repr

/-- models.py ComponentRun.check_completeness, reading dependency ids
through the environment w resolving run references.  Mirrors the source:
missing start or end timestamp sets success to False and appends a
message; empty inputs, outputs or dependencies appends a message without
touching success; finally, if self.id is truthy (assigned and nonzero)
and occurs among the ids of the direct dependencies, success is set to
False and a circular-dependency message is appended. -/
def ComponentRun.check_completeness (w : Ref → ComponentRun)
    (self : ComponentRun) : StatusDict :=
  let st : StatusDict := { success := true, msgs := [] }
  let st := if self.start_timestamp = none then
    { success := false, msgs := st.msgs ++ [noStartMsg self.component_name] }
    else st
  let st := if self.end_timestamp = none then
    { success := false, msgs := st.msgs ++ [noEndMsg self.component_name] }
    else st
  let st := if self.inputs.length = 0 then
    { st with msgs := st.msgs ++ [noInputsMsg self.component_name] }
    else st
  let st := if self.outputs.length = 0 then
    { st with msgs := st.msgs ++ [noOutputsMsg self.component_name] }
    else st
  let st := if self.dependencies.length = 0 then
    { st with msgs := st.msgs ++ [noDepsMsg self.component_name] }
    else st
  let st := if pyTruthyId self.id
      && decide (self.id ∈ self.dependencies.map (fun d => (w d).id)) then
    { success := false, msgs := st.msgs ++ [circularMsg self.component_name] }
    else st
  st

/-- The circular-dependency guard of check_completeness, named for reuse
in statements. -/
def circFlag (w : Ref → ComponentRun) (self : ComponentRun) : Bool :=
  pyTruthyId self.id
    && decide (self.id ∈ self.dependencies.map (fun d => (w d).id))

/-- check_completeness with the mutable receiver made explicit: the
method reads self and writes only the local status dictionary, so the
receiver it hands back is the one it received, step by step unchanged. -/
def ComponentRun.check_completeness_method (w : Ref → ComponentRun)
    (self : ComponentRun) : StatusDict × ComponentRun :=
  let st : StatusDict := { success := true, msgs := [] }
  let st := if self.start_timestamp = none then
    { success := false, msgs := st.msgs ++ [noStartMsg self.component_name] }
    else st
  let st := if self.end_timestamp = none then
    { success := false, msgs := st.msgs ++ [noEndMsg self.component_name] }
    else st
  let st := if self.inputs.length = 0 then
    { st with msgs := st.msgs ++ [noInputsMsg self.component_name] }
    else st
  let st := if self.outputs.length = 0 then
    { st with msgs := st.msgs ++ [noOutputsMsg self.component_name] }
    else st
  let st := if self.dependencies.length = 0 then
    { st with msgs := st.msgs ++ [noDepsMsg self.component_name] }
    else st
  let st := if pyTruthyId self.id
      && decide (self.id ∈ self.dependencies.map (fun d => (w d).id)) then
    { success := false, msgs := st.msgs ++ [circularMsg self.component_name] }
    else st
  (st, self)

/-!
Entities-side model (mltrace/entities/component_run.py).  The entities
ComponentRun stores inputs and outputs as Python list objects; because
the constructor defaults those parameters to module-level shared empty
lists, list objects must be modelled explicitly: a Heap of list cells,
with each run holding references (cell indices) to its inputs and
outputs lists.  _add_io rebinds the attribute to a freshly built
list(set(...)) rather than mutating the old list in place.
-/

/-- A heap of Python list objects holding IOPointers; a cell index is a
list object's identity. -/
structure Heap where
  cells : List (List IOPointer)
  deriving DecidableEq, Repr

/-- Read the list object at a cell index. -/
def Heap.get (h : Heap) (i : Nat) : List IOPointer :=
  h.cells.getD i []

/-- Allocate a fresh list object, returning the extended heap and the new
cell's index.  Existing cells are untouched. -/
def Heap.alloc (h : Heap) (xs : List IOPointer) : Heap × Nat :=
  (⟨h.cells ++ [xs]⟩, h.cells.length)

/-- The cell index of the module-level shared default list bound to the
inputs parameter of the entities constructor (evaluated once at function
definition time). -/
def sharedInputsCell : Nat := 0

/-- The cell index of the module-level shared default list bound to the
outputs parameter of the entities constructor. -/
def sharedOutputsCell : Nat := 1

/-- The heap at module load time: the two shared default cells, both
empty. -/
def initialHeap : Heap := ⟨[[], []]⟩

/-- entities/component_run.py ComponentRun: the client-side run record.
notes is stored as the raw Python value handed to the constructor
(PyVal); inputsRef and outputsRef are the identities of the list objects
bound to the inputs and outputs attributes. -/
structure EComponentRun where
  component_name : String
  notes : PyVal
  start_timestamp : Option Nat
  end_timestamp : Option Nat
  inputsRef : Nat
  outputsRef : Nat
  git_hash : Option String
  id : Option String
  stale : List String
  dependencies : List String
  deriving DecidableEq, Repr

/-- entities ComponentRun.__init__: every parameter is assigned to the
corresponding attribute directly; in particular notes is stored without
any isinstance check. -/
def EComponentRun.init (component_name : String) (notes : PyVal)
    (start_timestamp end_timestamp : Option Nat)
    (inputsRef outputsRef : Nat) (git_hash : Option String)
    (id : Option String) (stale : List String)
    (dependencies : List String) : EComponentRun :=
  { component_name := component_name
    notes := notes
    start_timestamp := start_timestamp
    end_timestamp := end_timestamp
    inputsRef := inputsRef
    outputsRef := outputsRef
    git_hash := git_hash
    id := id
    stale := stale
    dependencies := dependencies }

/-- entities ComponentRun(component_name) with every defaulted parameter
left at its default: notes is the empty string and the inputs and
outputs attributes are bound to the two module-level shared default list
objects. -/
def EComponentRun.initDefault (component_name : String) : EComponentRun :=
  EComponentRun.init component_name (.str "") none none
    sharedInputsCell sharedOutputsCell none none [] []

/-- entities ComponentRun notes property setter: raises TypeError on a
non-string (leaving the attribute as it was, since the raise precedes
the assignment), otherwise stores the string. -/
def EComponentRun.notes_setter (self : EComponentRun) (notes : PyVal) :
    Except String EComponentRun :=
  match notes with
  | .str s => .ok { self with notes := .str s }
  | .nonStr _ => .error "notes field must be of type str"

/-- entities ComponentRun._add_io: reads the current inputs (or outputs)
list object, builds a fresh list object list(set(old + elems)), and
rebinds the attribute to the fresh object.  The old list object is never
mutated, so every other reference to it still sees the old contents. -/
def EComponentRun.add_io_helper (h : Heap) (self : EComponentRun)
    (elems : List IOPointer) (input : Bool) : Heap × EComponentRun :=
  let cur := h.get (if input then self.inputsRef else self.outputsRef)
  let fresh := (cur ++ elems).dedup
  let alloc := h.alloc fresh
  (alloc.1,
    if input then { self with inputsRef := alloc.2 }
    else { self with outputsRef := alloc.2 })

/-- entities ComponentRun.add_input restricted to an already-constructed
IOPointer argument (the bare-string form only builds an IOPointer first
and then funnels through the same _add_io). -/
def EComponentRun.add_input (h : Heap) (self : EComponentRun)
    (inp : IOPointer) : Heap × EComponentRun :=
  EComponentRun.add_io_helper h self [inp] true

/-- entities ComponentRun.add_output restricted to an
already-constructed IOPointer argument. -/
def EComponentRun.add_output (h : Heap) (self : EComponentRun)
    (out : IOPointer) : Heap × EComponentRun :=
  EComponentRun.add_io_helper h self [out] false

/-- Iterating add_staleness_message n times with one fixed message, for
stating what n identical calls accumulate. -/
def addStaleIter (self : ComponentRun) (message : String) :
    Nat → ComponentRun
  | 0 => self
  | n + 1 => (addStaleIter self message n).add_staleness_message message

/-!
Concrete instances used to evaluate the model on closed inputs.
-/

/-- A concrete artifact pointer. -/
def cexPointer : IOPointer :=
  { oid := 0, name := "file.txt", value := [], pointer_type := .unknown,
    flag := false, labels := [] }

/-- A concrete label. -/
def cexLabel : Label := { oid := 0, id := "pii" }

/-- Run A of a three-cycle A depends on B depends on C depends on A:
id 1, dependencies referencing object 2 (run B), both timestamps set,
nonempty inputs and outputs. -/
def cexRunA : ComponentRun :=
  { id := some 1, component_name := "A", notes := "", git_hash := none,
    code_snapshot := none, start_timestamp := some 5, end_timestamp := some 6,
    inputs := [cexPointer], outputs := [cexPointer], dependencies := [2],
    stale := [] }

/-- Run B of the three-cycle: id 2, depends on object 3 (run C). -/
def cexRunB : ComponentRun :=
  { id := some 2, component_name := "B", notes := "", git_hash := none,
    code_snapshot := none, start_timestamp := some 5, end_timestamp := some 6,
    inputs := [cexPointer], outputs := [cexPointer], dependencies := [3],
    stale := [] }

/-- Run C of the three-cycle: id 3, depends on object 1 (run A). -/
def cexRunC : ComponentRun :=
  { id := some 3, component_name := "C", notes := "", git_hash := none,
    code_snapshot := none, start_timestamp := some 5, end_timestamp := some 6,
    inputs := [cexPointer], outputs := [cexPointer], dependencies := [1],
    stale := [] }

/-- The object environment of the three-cycle: references 1, 2, 3 resolve
to runs A, B, C. -/
def cycleWorld : Ref → ComponentRun := fun n =>
  if n = 1 then cexRunA else if n = 2 then cexRunB else cexRunC

/-- A record whose persisted id is the integer 0, with both timestamps
set. -/
def zeroIdBase : ComponentRun :=
  { ComponentRun.init "Z" with
    id := some 0, start_timestamp := some 1, end_timestamp := some 2 }

/-- The environment after zeroIdBase.set_upstream added a reference to
the record itself (reference 5 resolves to the updated record). -/
def zeroIdWorld : Ref → ComponentRun := fun _ => zeroIdBase.set_upstream [5]

/-- A record with an assigned nonzero id, about to receive itself as a
dependency. -/
def selfDepBase : ComponentRun :=
  { ComponentRun.init "S" with
    id := some 7, start_timestamp := some 1, end_timestamp := some 2 }

/-- The environment after selfDepBase.set_upstream added a reference to
the record itself (reference 9 resolves to the updated record). -/
def selfDepWorld : Ref → ComponentRun := fun _ => selfDepBase.set_upstream [9]

/-- Two distinct pointer objects carrying the same (name, value) pair:
equal key, different object identity. -/
def dupPtr1 : IOPointer :=
  { oid := 0, name := "data.csv", value := [1, 2], pointer_type := .unknown,
    flag := false, labels := [] }

/-- Second object with the same (name, value) as dupPtr1. -/
def dupPtr2 : IOPointer :=
  { oid := 1, name := "data.csv", value := [1, 2], pointer_type := .unknown,
    flag := false, labels := [] }

/-- A record already holding dupPtr1 among its inputs and outputs. -/
def dupRun : ComponentRun :=
  { ComponentRun.init "D" with inputs := [dupPtr1], outputs := [dupPtr1] }

/-!
Helper lemmas.
-/

/-- String concatenation cancels on the left. -/
theorem string_append_left_cancel {s a b : String} (h : s ++ a = s ++ b) :
    a = b := by
  have hd : (s ++ a).data = (s ++ b).data := congrArg String.data h
  simp [String.data_append] at hd
  exact String.ext hd

/-- The circular-dependency message differs from each advisory and
timestamp message, whatever the component name. -/
theorem circularMsg_ne (c : String) :
    circularMsg c ≠ noStartMsg c ∧ circularMsg c ≠ noEndMsg c
      ∧ circularMsg c ≠ noInputsMsg c ∧ circularMsg c ≠ noOutputsMsg c
      ∧ circularMsg c ≠ noDepsMsg c := by
  refine ⟨fun h => ?_, fun h => ?_, fun h => ?_, fun h => ?_, fun h => ?_⟩ <;>
    exact absurd (string_append_left_cancel h) (by decide)

/-- Closed form of check_completeness: success is the conjunction of the
two timestamp checks and the negated circular-dependency guard, and the
message list is the in-order concatenation of the six conditional
messages. -/
theorem check_completeness_eq (w : Ref → ComponentRun) (r : ComponentRun) :
    r.check_completeness w =
      { success := !decide (r.start_timestamp = none)
            && !decide (r.end_timestamp = none) && !circFlag w r,
        msgs :=
          (if r.start_timestamp = none then [noStartMsg r.component_name] else [])
          ++ (if r.end_timestamp = none then [noEndMsg r.component_name] else [])
          ++ (if r.inputs.length = 0 then [noInputsMsg r.component_name] else [])
          ++ (if r.outputs.length = 0 then [noOutputsMsg r.component_name] else [])
          ++ (if r.dependencies.length = 0 then [noDepsMsg r.component_name] else [])
          ++ (if circFlag w r then [circularMsg r.component_name] else []) } := by
  have hc : (pyTruthyId r.id
      && decide (r.id ∈ r.dependencies.map (fun d => (w d).id))) = circFlag w r := rfl
  by_cases h1 : r.start_timestamp = none <;>
    by_cases h2 : r.end_timestamp = none <;>
      by_cases h3 : r.inputs.length = 0 <;>
        by_cases h4 : r.outputs.length = 0 <;>
          by_cases h5 : r.dependencies.length = 0 <;>
            cases hcf : circFlag w r <;>
              rw [← hc] at hcf <;>
              simp [ComponentRun.check_completeness, h1, h2, h3, h4, h5,
                hcf, hc] <;> simp_all

/-- When the record's id does not occur among the ids of its direct
dependencies, check_completeness emits no circular-dependency message
and its success is exactly the conjunction of the two timestamp
checks. -/
theorem check_no_direct_self_dep (w : Ref → ComponentRun)
    (r : ComponentRun)
    (h : r.id ∉ r.dependencies.map fun d => (w d).id) :
    circularMsg r.component_name ∉ (r.check_completeness w).msgs ∧
      (r.check_completeness w).success
        = (r.start_timestamp.isSome && r.end_timestamp.isSome) := by
  have hflag : circFlag w r = false := by
    simp [circFlag]
    intro _
    simpa using h
  rw [check_completeness_eq]
  obtain ⟨n1, n2, n3, n4, n5⟩ := circularMsg_ne r.component_name
  constructor
  · simp only [hflag]
    split_ifs <;> simp_all
  · cases hs : r.start_timestamp <;> cases he : r.end_timestamp <;>
      simp [hflag]

/-- Appending an element already present does not change the underlying
set, and the deduplicated length is unchanged. -/
theorem dedup_append_mem {α : Type} [DecidableEq α] (xs : List α) (p : α)
    (h : p ∈ xs) :
    (xs ++ [p]).toFinset = xs.toFinset
      ∧ (xs ++ [p]).dedup.length = xs.dedup.length := by
  have h1 : (xs ++ [p]).toFinset = xs.toFinset := by
    simp [List.toFinset_append]
    exact h
  refine ⟨h1, ?_⟩
  have h2 := List.card_toFinset (xs ++ [p])
  have h3 := List.card_toFinset xs
  rw [h1, h3] at h2
  omega

/-!
Claim theorems.
-/

/-- C1 counterexample: runs A, B, C with ids 1, 2, 3 form the dependency
cycle A depends on B depends on C depends on A, each with both
timestamps set; check_completeness on A returns success true and its
messages do not mention a circular dependency, contradicting the claim
that any record of such a cycle reports success false with a circular
message. -/
theorem C1_cycle_counterexample :
    cexRunA.dependencies = [2] ∧ cexRunB.dependencies = [3]
      ∧ cexRunC.dependencies = [1]
      ∧ cycleWorld 1 = cexRunA ∧ cycleWorld 2 = cexRunB
      ∧ cycleWorld 3 = cexRunC
      ∧ (cexRunA.check_completeness cycleWorld).success = true
      ∧ circularMsg cexRunA.component_name
          ∉ (cexRunA.check_completeness cycleWorld).msgs := by
  refine ⟨rfl, rfl, rfl, rfl, rfl, rfl, rfl, ?_⟩
  decide

/-- C1 amended: check_completeness only inspects the record's immediate
dependencies, so a transitive three-cycle A to B to C back to A between
records with pairwise distinct assigned ids is not reported: each of the
three checks emits no circular-dependency message, and each success
value is decided by the two timestamp checks alone. -/
theorem C1_no_transitive_cycle_detection
    (w : Ref → ComponentRun) (a b c : Ref) (ra rb rc : ComponentRun)
    (i j k : Int)
    (hwa : w a = ra) (hwb : w b = rb) (hwc : w c = rc)
    (hia : ra.id = some i) (hib : rb.id = some j) (hic : rc.id = some k)
    (hda : ra.dependencies = [b]) (hdb : rb.dependencies = [c])
    (hdc : rc.dependencies = [a])
    (hij : i ≠ j) (hjk : j ≠ k) (hki : k ≠ i) :
    (circularMsg ra.component_name ∉ (ra.check_completeness w).msgs
      ∧ (ra.check_completeness w).success
          = (ra.start_timestamp.isSome && ra.end_timestamp.isSome))
    ∧ (circularMsg rb.component_name ∉ (rb.check_completeness w).msgs
      ∧ (rb.check_completeness w).success
          = (rb.start_timestamp.isSome && rb.end_timestamp.isSome))
    ∧ (circularMsg rc.component_name ∉ (rc.check_completeness w).msgs
      ∧ (rc.check_completeness w).success
          = (rc.start_timestamp.isSome && rc.end_timestamp.isSome)) := by
  refine ⟨?_, ?_, ?_⟩
  · exact check_no_direct_self_dep w ra
      (by simp [hda, hwb, hia, hib, hij])
  · exact check_no_direct_self_dep w rb
      (by simp [hdb, hwc, hib, hic, hjk])
  · exact check_no_direct_self_dep w rc
      (by simp [hdc, hwa, hic, hia]; exact hki)

/-- Witness for C1 amended at the concrete three-cycle. -/
theorem C1_no_transitive_cycle_detection_witness :
    (circularMsg cexRunA.component_name
        ∉ (cexRunA.check_completeness cycleWorld).msgs
      ∧ (cexRunA.check_completeness cycleWorld).success
          = (cexRunA.start_timestamp.isSome && cexRunA.end_timestamp.isSome))
    ∧ (circularMsg cexRunB.component_name
        ∉ (cexRunB.check_completeness cycleWorld).msgs
      ∧ (cexRunB.check_completeness cycleWorld).success
          = (cexRunB.start_timestamp.isSome && cexRunB.end_timestamp.isSome))
    ∧ (circularMsg cexRunC.component_name
        ∉ (cexRunC.check_completeness cycleWorld).msgs
      ∧ (cexRunC.check_completeness cycleWorld).success
          = (cexRunC.start_timestamp.isSome && cexRunC.end_timestamp.isSome)) :=
  C1_no_transitive_cycle_detection cycleWorld 1 2 3 cexRunA cexRunB cexRunC
    1 2 3 rfl rfl rfl rfl rfl rfl rfl rfl rfl
    (by decide) (by decide) (by decide)

/-- C2 counterexample: a record whose assigned id is the integer 0 and
whose dependencies contain a reference to the record itself.  The
set_upstream call is not rejected (the self reference is stored), yet
check_completeness returns success true with no circular-dependency
message, because the guard uses Python truthiness of the id and 0 is
falsy. -/
theorem C2_zero_id_counterexample :
    zeroIdBase.id = some 0
      ∧ (zeroIdBase.set_upstream [5]).dependencies = [5]
      ∧ zeroIdWorld 5 = zeroIdBase.set_upstream [5]
      ∧ ((zeroIdBase.set_upstream [5]).check_completeness zeroIdWorld).success
          = true
      ∧ circularMsg (zeroIdBase.set_upstream [5]).component_name
          ∉ ((zeroIdBase.set_upstream [5]).check_completeness zeroIdWorld).msgs := by
  refine ⟨rfl, by decide, rfl, by decide, by decide⟩

/-- C2 amended: set_upstream itself never rejects a self dependency, but
for every record whose assigned id is nonzero, after set_upstream adds a
reference to the record itself the completeness check returns success
false and a circular-dependency message. -/
theorem C2_self_dep_flagged (w : Ref → ComponentRun) (p : Ref)
    (r : ComponentRun) (v : Int) (hv : v ≠ 0) (hid : r.id = some v)
    (hw : w p = r.set_upstream [p]) :
    p ∈ (r.set_upstream [p]).dependencies
      ∧ ((r.set_upstream [p]).check_completeness w).success = false
      ∧ circularMsg r.component_name
          ∈ ((r.set_upstream [p]).check_completeness w).msgs := by
  have hmem : p ∈ (r.set_upstream [p]).dependencies := by
    simp [ComponentRun.set_upstream]
  have hflag : circFlag w (r.set_upstream [p]) = true := by
    unfold circFlag
    have h1 : pyTruthyId (r.set_upstream [p]).id = true := by
      show pyTruthyId r.id = true
      rw [hid]
      simpa [pyTruthyId] using hv
    have h2 : (r.set_upstream [p]).id
        ∈ (r.set_upstream [p]).dependencies.map (fun d => (w d).id) := by
      refine List.mem_map.mpr ⟨p, hmem, ?_⟩
      rw [hw]
    simp [h1, h2]
  refine ⟨hmem, ?_, ?_⟩
  · rw [check_completeness_eq]
    simp [hflag]
  · rw [check_completeness_eq]
    have hcn : (r.set_upstream [p]).component_name = r.component_name := rfl
    simp [hflag, hcn]

/-- Witness for C2 amended at a record with id 7 that received itself as
a dependency through reference 9. -/
theorem C2_self_dep_flagged_witness :
    9 ∈ (selfDepBase.set_upstream [9]).dependencies
      ∧ ((selfDepBase.set_upstream [9]).check_completeness selfDepWorld).success
          = false
      ∧ circularMsg selfDepBase.component_name
          ∈ ((selfDepBase.set_upstream [9]).check_completeness selfDepWorld).msgs :=
  C2_self_dep_flagged selfDepWorld 9 selfDepBase 7 (by decide) rfl rfl

/-- C3: a missing start or end timestamp forces success false and adds
the corresponding message; empty inputs, outputs or dependencies add
only their advisory message and never affect success, which equals the
conjunction of the two timestamp checks and the negated circular guard;
with both timestamps set and no self-referencing dependency success is
true even with everything empty, and with both timestamps missing and
all three collections empty success is false and the message list is
exactly the five messages in order. -/
theorem C3_completeness_rules (w : Ref → ComponentRun) (r : ComponentRun) :
    ((r.check_completeness w).success
        = (r.start_timestamp.isSome && r.end_timestamp.isSome
            && !circFlag w r))
    ∧ (r.start_timestamp = none →
        (r.check_completeness w).success = false
          ∧ noStartMsg r.component_name ∈ (r.check_completeness w).msgs)
    ∧ (r.end_timestamp = none →
        (r.check_completeness w).success = false
          ∧ noEndMsg r.component_name ∈ (r.check_completeness w).msgs)
    ∧ (r.inputs = [] →
        noInputsMsg r.component_name ∈ (r.check_completeness w).msgs)
    ∧ (r.outputs = [] →
        noOutputsMsg r.component_name ∈ (r.check_completeness w).msgs)
    ∧ (r.dependencies = [] →
        noDepsMsg r.component_name ∈ (r.check_completeness w).msgs)
    ∧ (r.start_timestamp.isSome = true → r.end_timestamp.isSome = true →
        r.id ∉ r.dependencies.map (fun d => (w d).id) →
        (r.check_completeness w).success = true)
    ∧ (r.start_timestamp = none → r.end_timestamp = none →
        r.inputs = [] → r.outputs = [] → r.dependencies = [] →
        (r.check_completeness w).success = false
          ∧ (r.check_completeness w).msgs
              = [noStartMsg r.component_name, noEndMsg r.component_name,
                 noInputsMsg r.component_name, noOutputsMsg r.component_name,
                 noDepsMsg r.component_name]) := by
  simp only [check_completeness_eq]
  refine ⟨?_, ?_, ?_, ?_, ?_, ?_, ?_, ?_⟩
  · cases r.start_timestamp <;> cases r.end_timestamp <;> simp
  · intro h
    simp [h]
  · intro h
    simp [h]
  · intro h
    simp [h]
  · intro h
    simp [h]
  · intro h
    simp [h]
  · intro h1 h2 h3
    have hf : circFlag w r = false := by
      simp [circFlag]
      intro _
      simpa using h3
    obtain ⟨x, hx⟩ := Option.isSome_iff_exists.mp h1
    obtain ⟨y, hy⟩ := Option.isSome_iff_exists.mp h2
    simp [hx, hy, hf]
  · intro h1 h2 h3 h4 h5
    have hf : circFlag w r = false := by
      simp [circFlag, h5]
    simp [h1, h2, h3, h4, h5, hf]

/-- Witness for C3 at a freshly initialized record: both timestamps
missing and all collections empty yields success false with exactly the
five messages. -/
theorem C3_completeness_rules_witness :
    ((ComponentRun.init "W").check_completeness
        (fun _ => ComponentRun.init "W")).success = false
      ∧ ((ComponentRun.init "W").check_completeness
          (fun _ => ComponentRun.init "W")).msgs
          = [noStartMsg "W", noEndMsg "W", noInputsMsg "W",
             noOutputsMsg "W", noDepsMsg "W"] :=
  (C3_completeness_rules (fun _ => ComponentRun.init "W")
    (ComponentRun.init "W")).2.2.2.2.2.2.2 rfl rfl rfl rfl rfl

/-- C4 counterexample: dupPtr1 and dupPtr2 carry the same (name, value)
pair but are distinct objects; with dupPtr1 already among the inputs,
add_input dupPtr2 grows the inputs from one to two elements (and
likewise for outputs), because Python set membership for IOPointer is
object identity, not the (name, value) key. -/
theorem C4_identity_dedup_counterexample :
    dupPtr1.name = dupPtr2.name ∧ dupPtr1.value = dupPtr2.value
      ∧ dupPtr1 ≠ dupPtr2
      ∧ dupPtr1 ∈ dupRun.inputs ∧ dupRun.inputs.length = 1
      ∧ (dupRun.add_input dupPtr2).inputs.length = 2
      ∧ dupPtr1 ∈ dupRun.outputs ∧ dupRun.outputs.length = 1
      ∧ (dupRun.add_output dupPtr2).outputs.length = 2 := by decide

/-- C4 amended: adding the same pointer object again is a no-op at the
set level: the underlying set of inputs (outputs) is unchanged, the
resulting length equals the deduplicated length of the old list, and
when the old list was duplicate-free (as every list produced by _add_io
is) the length is exactly unchanged.  Dedup by the (name, value) key
alone is not performed by _add_io. -/
theorem C4_same_object_dedup (r : ComponentRun) (p : IOPointer)
    (hin : p ∈ r.inputs) (hout : p ∈ r.outputs) :
    ((r.add_input p).inputs.toFinset = r.inputs.toFinset
      ∧ (r.add_input p).inputs.length = r.inputs.dedup.length
      ∧ (r.inputs.Nodup →
          (r.add_input p).inputs.length = r.inputs.length))
    ∧ ((r.add_output p).outputs.toFinset = r.outputs.toFinset
      ∧ (r.add_output p).outputs.length = r.outputs.dedup.length
      ∧ (r.outputs.Nodup →
          (r.add_output p).outputs.length = r.outputs.length)) := by
  obtain ⟨hi1, hi2⟩ := dedup_append_mem r.inputs p hin
  obtain ⟨ho1, ho2⟩ := dedup_append_mem r.outputs p hout
  have eqin : (r.add_input p).inputs = (r.inputs ++ [p]).dedup := rfl
  have eqout : (r.add_output p).outputs = (r.outputs ++ [p]).dedup := rfl
  constructor
  · refine ⟨?_, ?_, ?_⟩
    · rw [eqin, ← hi1]
      exact Finset.ext fun a => by simp
    · rw [eqin]
      exact hi2
    · intro hnd
      rw [eqin, hi2, List.dedup_eq_self.mpr hnd]
  · refine ⟨?_, ?_, ?_⟩
    · rw [eqout, ← ho1]
      exact Finset.ext fun a => by simp
    · rw [eqout]
      exact ho2
    · intro hnd
      rw [eqout, ho2, List.dedup_eq_self.mpr hnd]

/-- Witness for C4 amended: adding dupPtr1 (already present) to dupRun
leaves inputs and outputs at length one. -/
theorem C4_same_object_dedup_witness :
    ((dupRun.add_input dupPtr1).inputs.toFinset = dupRun.inputs.toFinset
      ∧ (dupRun.add_input dupPtr1).inputs.length = dupRun.inputs.dedup.length
      ∧ (dupRun.inputs.Nodup →
          (dupRun.add_input dupPtr1).inputs.length = dupRun.inputs.length))
    ∧ ((dupRun.add_output dupPtr1).outputs.toFinset = dupRun.outputs.toFinset
      ∧ (dupRun.add_output dupPtr1).outputs.length
          = dupRun.outputs.dedup.length
      ∧ (dupRun.outputs.Nodup →
          (dupRun.add_output dupPtr1).outputs.length
            = dupRun.outputs.length)) :=
  C4_same_object_dedup dupRun dupPtr1 (by decide) (by decide)

/-- C5: add_staleness_message appends the message at the end of the
stale list without deduplication: one call appends one copy, n identical
calls leave the prior list as a prefix followed by n copies of the
message, and the occurrence count grows by exactly n. -/
theorem C5_staleness_append (r : ComponentRun) (m : String) :
    (r.add_staleness_message m).stale = r.stale ++ [m]
    ∧ (∀ n, (addStaleIter r m n).stale = r.stale ++ List.replicate n m)
    ∧ (∀ n, (addStaleIter r m n).stale.count m = r.stale.count m + n) := by
  have key : ∀ n,
      (addStaleIter r m n).stale = r.stale ++ List.replicate n m := by
    intro n
    induction n with
    | zero => simp [addStaleIter]
    | succ k ih =>
      simp [addStaleIter, ComponentRun.add_staleness_message, ih,
        List.replicate_succ']
  refine ⟨rfl, key, fun n => ?_⟩
  rw [key n]
  simp [List.count_append]

/-- C6 counterexample: attaching the same label object twice via
add_label stores it twice: both the occurrence count of the label and
the number of stored labels carrying its id become two, contradicting
set semantics keyed by label id. -/
theorem C6_label_dedup_counterexample :
    cexLabel ∈ (cexPointer.add_label cexLabel).labels
      ∧ ((cexPointer.add_label cexLabel).add_label cexLabel).labels.count
          cexLabel = 2
      ∧ (((cexPointer.add_label cexLabel).add_label cexLabel).labels.filter
          (fun l => l.id == cexLabel.id)).length = 2 := by decide

/-- C6 amended: add_label and add_labels append without any
deduplication, so duplicates accumulate (the count of an attached label
grows by one per call); only the separate dedup_labels pass collapses
the list to one occurrence per label object, preserving membership. -/
theorem C6_labels_append_no_dedup (p : IOPointer) (l : Label)
    (ls : List Label) :
    (p.add_label l).labels = p.labels ++ [l]
    ∧ (p.add_labels ls).labels = p.labels ++ ls
    ∧ (p.add_label l).labels.count l = p.labels.count l + 1
    ∧ (p.dedup_labels).labels.Nodup
    ∧ (∀ x, x ∈ (p.dedup_labels).labels ↔ x ∈ p.labels) := by
  refine ⟨rfl, rfl, ?_, List.nodup_dedup _, fun x => List.mem_dedup⟩
  simp [IOPointer.add_label, List.count_append]

/-- C7: set_start_timestamp and set_end_timestamp store the current time
when called with None (the default), store the given value when called
with a datetime, and fail with the TypeError message exactly when called
with a non-None non-datetime value; on failure no updated record is
produced, so the caller's record keeps its previous timestamp. -/
theorem C7_timestamp_setters (r : ComponentRun) (now : Nat)
    (ts : PyTsArg) :
    (ts = PyTsArg.pyNone →
      r.set_start_timestamp now ts
          = .ok { r with start_timestamp := some now }
        ∧ r.set_end_timestamp now ts
          = .ok { r with end_timestamp := some now })
    ∧ (∀ t, ts = PyTsArg.pyDatetime t →
      r.set_start_timestamp now ts
          = .ok { r with start_timestamp := some t }
        ∧ r.set_end_timestamp now ts
          = .ok { r with end_timestamp := some t })
    ∧ ((∃ tag, ts = PyTsArg.pyOther tag) ↔
      r.set_start_timestamp now ts
        = .error "Timestamp must be of type datetime.")
    ∧ ((∃ tag, ts = PyTsArg.pyOther tag) ↔
      r.set_end_timestamp now ts
        = .error "Timestamp must be of type datetime.") := by
  cases ts <;>
    simp [ComponentRun.set_start_timestamp, ComponentRun.set_end_timestamp]

/-- Witness for C7: a fresh record, current time 7, called with None
stores 7 as both timestamps. -/
theorem C7_timestamp_setters_witness :
    (ComponentRun.init "T").set_start_timestamp 7 PyTsArg.pyNone
        = .ok { ComponentRun.init "T" with start_timestamp := some 7 }
      ∧ (ComponentRun.init "T").set_end_timestamp 7 PyTsArg.pyNone
        = .ok { ComponentRun.init "T" with end_timestamp := some 7 } :=
  (C7_timestamp_setters (ComponentRun.init "T") 7 PyTsArg.pyNone).1 rfl

/-- C8 counterexample: the entities constructor stores a non-string
notes value without raising: the record is created and its notes field
holds the non-string, contradicting the claim that every call
introducing a non-string notes value fails immediately. -/
theorem C8_init_unchecked_notes_counterexample :
    (EComponentRun.init "c" (PyVal.nonStr 0) none none
        sharedInputsCell sharedOutputsCell none none [] []).notes
      = PyVal.nonStr 0 := rfl

/-- C8 amended: the notes property setter (and db add_notes) rejects
every non-string with a TypeError, storing strings unchanged and never
coercing, and on rejection no updated record is produced so the notes
field keeps its previous value; the constructor, however, stores
whatever notes value it is given without any check. -/
theorem C8_notes_type_checks (r : EComponentRun) (rdb : ComponentRun)
    (v : PyVal) (c : String) (s e : Option Nat) (iR oR : Nat)
    (g : Option String) (i : Option String) (st : List String)
    (d : List String) :
    (∀ s0, v = PyVal.str s0 →
      r.notes_setter v = .ok { r with notes := v }
        ∧ rdb.add_notes v = .ok { rdb with notes := s0 })
    ∧ (∀ t, v = PyVal.nonStr t →
      r.notes_setter v = .error "notes field must be of type str"
        ∧ rdb.add_notes v = .error "notes field must be of type str")
    ∧ (EComponentRun.init c v s e iR oR g i st d).notes = v := by
  cases v <;>
    simp [EComponentRun.notes_setter, ComponentRun.add_notes,
      EComponentRun.init]

/-- Witness for C8 amended: the setter accepts a string and rejects a
non-string, and the constructor stores the given notes value. -/
theorem C8_notes_type_checks_witness :
    ((EComponentRun.initDefault "E").notes_setter (PyVal.str "ok")
        = .ok { EComponentRun.initDefault "E" with notes := PyVal.str "ok" }
      ∧ (ComponentRun.init "E").add_notes (PyVal.str "ok")
        = .ok { ComponentRun.init "E" with notes := "ok" })
    ∧ ((EComponentRun.initDefault "E").notes_setter (PyVal.nonStr 3)
        = .error "notes field must be of type str"
      ∧ (ComponentRun.init "E").add_notes (PyVal.nonStr 3)
        = .error "notes field must be of type str") :=
  ⟨((C8_notes_type_checks (EComponentRun.initDefault "E")
      (ComponentRun.init "E") (PyVal.str "ok") "E" none none 0 1 none none
      [] []).1 "ok" rfl),
    ((C8_notes_type_checks (EComponentRun.initDefault "E")
      (ComponentRun.init "E") (PyVal.nonStr 3) "E" none none 0 1 none none
      [] []).2.1 3 rfl)⟩

/-- C9: check_completeness is read-only: with the receiver made
explicit, the record handed back is the record passed in with every
field untouched, the status computed agrees with the pure function, and
a second call on the unchanged record returns the same result. -/
theorem C9_check_completeness_pure (w : Ref → ComponentRun)
    (r : ComponentRun) :
    (r.check_completeness_method w).2 = r
    ∧ (r.check_completeness_method w).1 = r.check_completeness w
    ∧ ((r.check_completeness_method w).2.check_completeness_method w)
        = r.check_completeness_method w := ⟨rfl, rfl, rfl⟩

/-- C10: _add_io touches only the inputs (resp. outputs) attribute of
its receiver: every other field of the record is unchanged, and since it
allocates a fresh list object instead of mutating the old one, every
pre-existing list cell of the heap — in particular the inputs and
outputs lists of every other record, including the shared default cells
— still holds its old contents; the rebound attribute points at the
deduplicated concatenation of the old contents and the new elements. -/
theorem C10_add_io_frame (h : Heap) (r : EComponentRun)
    (elems : List IOPointer) (input : Bool) (i : Nat)
    (hi : i < h.cells.length) :
    ((EComponentRun.add_io_helper h r elems input).1.get i = h.get i)
    ∧ ((EComponentRun.add_io_helper h r elems input).2.component_name
        = r.component_name)
    ∧ ((EComponentRun.add_io_helper h r elems input).2.notes = r.notes)
    ∧ ((EComponentRun.add_io_helper h r elems input).2.start_timestamp
        = r.start_timestamp)
    ∧ ((EComponentRun.add_io_helper h r elems input).2.end_timestamp
        = r.end_timestamp)
    ∧ ((EComponentRun.add_io_helper h r elems input).2.git_hash
        = r.git_hash)
    ∧ ((EComponentRun.add_io_helper h r elems input).2.id = r.id)
    ∧ ((EComponentRun.add_io_helper h r elems input).2.stale = r.stale)
    ∧ ((EComponentRun.add_io_helper h r elems input).2.dependencies
        = r.dependencies)
    ∧ (input = true →
        (EComponentRun.add_io_helper h r elems input).2.outputsRef
          = r.outputsRef)
    ∧ (input = false →
        (EComponentRun.add_io_helper h r elems input).2.inputsRef
          = r.inputsRef)
    ∧ ((EComponentRun.add_io_helper h r elems input).1.get
          (if input then
            (EComponentRun.add_io_helper h r elems input).2.inputsRef
          else
            (EComponentRun.add_io_helper h r elems input).2.outputsRef)
        = (h.get (if input then r.inputsRef else r.outputsRef)
            ++ elems).dedup) := by
  cases input <;>
    simp [EComponentRun.add_io_helper, Heap.get, Heap.alloc,
      List.getD, List.getElem?_append, hi, List.getElem?_eq_getElem hi]

/-- Witness for C10 at the module-load heap: a default-constructed
record adds one input; the shared default inputs cell (cell 0, also
aliased by every other default-constructed record) still reads as empty
afterwards, and the receiver's outputsRef is untouched. -/
theorem C10_add_io_frame_witness :
    sharedInputsCell < initialHeap.cells.length
      ∧ ((EComponentRun.add_io_helper initialHeap
            (EComponentRun.initDefault "E1") [cexPointer] true).1.get
              sharedInputsCell
          = initialHeap.get sharedInputsCell)
      ∧ ((EComponentRun.add_io_helper initialHeap
            (EComponentRun.initDefault "E1") [cexPointer] true).2.outputsRef
          = (EComponentRun.initDefault "E1").outputsRef) :=
  ⟨by decide,
    (C10_add_io_frame initialHeap (EComponentRun.initDefault "E1")
      [cexPointer] true sharedInputsCell (by decide)).1,
    (C10_add_io_frame initialHeap (EComponentRun.initDefault "E1")
      [cexPointer] true sharedInputsCell
      (by decide)).2.2.2.2.2.2.2.2.2.1 rfl⟩

end Mltrace
